import Mathlib

/-!
Shallow embedding of the vehicle fleet management application (vehiapp).

The data model follows `src/vehiapp/models.py`; the operations follow
`src/vehiapp/views.py`.  The relational store is embedded as explicit lists
of records, foreign keys as `Option Nat` ids, Django query operations as
list filters and maps.  Decimal coordinate fields are embedded as integers
(their exact numeric domain is irrelevant to the claims proved here) and
timestamps as naturals.
-/

namespace Vehi

/-- Django auth `User`: unique username, superuser flag; `is_authenticated`
distinguishes a logged-in user from `AnonymousUser`. -/
structure User where
  id : Nat
  username : String
  is_superuser : Bool
  is_authenticated : Bool
  deriving Repr, DecidableEq

/-- Model `Profile` (models.py lines 7-17): one-to-one with `User`, carries a role
tag stored as a character field. -/
structure Profile where
  id : Nat
  userId : Nat
  role : String
  deriving Repr, DecidableEq

/-- Model `Vehicle` (models.py lines 19-33): unique registration number, optional
driver reference (`current_driver`, nullable, SET_NULL on driver deletion),
optional coordinates and last-location timestamp. -/
structure Vehicle where
  id : Nat
  registration_no : String
  make : String
  model : String
  year : Option Nat
  status : String
  current_driver : Option Nat
  latitude : Option Int
  longitude : Option Int
  last_location_time : Option Nat
  deriving Repr, DecidableEq

/-- Model `MaintenanceLog` (models.py lines 35-43): belongs to a vehicle, creator
reference nullable (SET_NULL on creator deletion). -/
structure MaintenanceLog where
  id : Nat
  vehicleId : Nat
  description : String
  date : Nat
  next_due : Option Nat
  created_by : Option Nat
  deriving Repr, DecidableEq

/-- Model `FuelLog` (models.py lines 45-51): belongs to a vehicle, creator
reference nullable (SET_NULL on creator deletion). -/
structure FuelLog where
  id : Nat
  vehicleId : Nat
  date : Nat
  liters : Int
  cost : Int
  odometer : Option Nat
  created_by : Option Nat
  deriving Repr, DecidableEq

/-- The relational store: one list per table. -/
structure Store where
  users : List User
  profiles : List Profile
  vehicles : List Vehicle
  maintenance_logs : List MaintenanceLog
  fuel_logs : List FuelLog
  deriving Repr, DecidableEq

/-- Python `str.lower()`, embedded character-wise. -/
def lower (s : String) : String :=
  ⟨s.data.map Char.toLower⟩

/-- Python `str.strip()`: drop leading and trailing whitespace. -/
def strTrim (s : String) : String :=
  ⟨((s.data.dropWhile Char.isWhitespace).reverse.dropWhile Char.isWhitespace).reverse⟩

/-- Resolve `user.profile` (the one-to-one reverse accessor): first profile
whose `userId` matches.  `none` embeds the `RelatedObjectDoesNotExist`
exception raised when the user has no profile. -/
def Store.profileOf (s : Store) (uid : Nat) : Option Profile :=
  s.profiles.find? (fun p => p.userId == uid)

/-- Helper `is_app_admin` (views.py lines 17-27): true if the user is authenticated
and is a superuser or has `profile.role == "admin"` (the view writes the literal in single quotes) case-insensitively; a
missing profile is caught and yields false. -/
def is_app_admin (s : Store) (u : User) : Bool :=
  if !u.is_authenticated then false
  else if u.is_superuser then true
  else
    match s.profileOf u.id with
    | some p => lower p.role == "admin"
    | none => false

/-- Helper `get_user_role` (views.py lines 29-34): the lower-cased profile role, or
`none` when the profile lookup raises. -/
def get_user_role (s : Store) (u : User) : Option String :=
  (s.profileOf u.id).map (fun p => lower p.role)

/-- Outcome of a gated request: `login_required` redirects unauthenticated
users to the named `login` route; `PermissionDenied` renders 403 via the
custom handler; otherwise the wrapped view runs. -/
inductive GateResult where
  | redirectLogin
  | denied
  | allowed
  deriving Repr, DecidableEq

/-- Decorator `role_required` (views.py lines 36-53): the gate decision of the decorator.
Requires authentication (else redirect to login), then permits superusers,
app admins, or users whose normalized role is among the lower-cased allowed
roles; every other authenticated user gets `PermissionDenied`. -/
def role_required (allowed_roles : List String) (s : Store) (u : User) : GateResult :=
  if !u.is_authenticated then .redirectLogin
  else
    let allowed := allowed_roles.map (fun r => lower r)
    if u.is_superuser || is_app_admin s u then .allowed
    else
      match get_user_role s u with
      | some role => if allowed.contains role then .allowed else .denied
      | none => .denied

end Vehi

namespace Vehi

/-- The admin dashboard gate (views.py line 182): `@role_required` with the single role admin. -/
def admin_dashboard_gate (s : Store) (u : User) : GateResult :=
  role_required ["admin"] s u

/-- View `vehicle_detail` access decision (views.py lines 348-357): gated to
admin/staff/driver, then a driver may proceed only on a vehicle currently
assigned to them (`current_driver_id != user.id` raises PermissionDenied
unless the user is an app admin). -/
def vehicle_detail (s : Store) (u : User) (v : Vehicle) : GateResult :=
  match role_required ["admin", "staff", "driver"] s u with
  | .allowed =>
      if get_user_role s u == some "driver" && !(v.current_driver == some u.id)
          && !(is_app_admin s u) then
        .denied
      else
        .allowed
  | r => r

/-- One entry of the JSON location feed (views.py lines 490-500):
`{id, reg, make, model, status, driver, lat, lng, updated}`. -/
structure TrackEntry where
  id : Nat
  reg : String
  make : String
  model : String
  status : String
  driver : Option String
  lat : Int
  lng : Int
  updated : Option Nat
  deriving Repr, DecidableEq

/-- Expression `getattr(v.current_driver, "username", None)`: the username of
the assigned driver, or `none` when no driver is assigned. -/
def driverUsername (s : Store) (d : Option Nat) : Option String :=
  d.bind (fun uid => (s.users.find? (fun u => u.id == uid)).map (fun u => u.username))

/-- The feed entry built for one vehicle (views.py lines 490-500); only used
on vehicles whose coordinates are present, defaults are never reached there. -/
def trackEntryOf (s : Store) (v : Vehicle) : TrackEntry :=
  { id := v.id
    reg := v.registration_no
    make := v.make
    model := v.model
    status := v.status
    driver := driverUsername s v.current_driver
    lat := v.latitude.getD 0
    lng := v.longitude.getD 0
    updated := v.last_location_time }

/-- The loop of `vehicle_track_data` (views.py lines 484-500): walk all
vehicles, `continue` past any with a missing latitude or longitude,
otherwise append the entry. -/
def trackLoop (s : Store) : List Vehicle → List TrackEntry
  | [] => []
  | v :: rest =>
    match v.latitude, v.longitude with
    | some lat, some lng =>
        { id := v.id
          reg := v.registration_no
          make := v.make
          model := v.model
          status := v.status
          driver := driverUsername s v.current_driver
          lat := lat
          lng := lng
          updated := v.last_location_time } :: trackLoop s rest
    | some _, none => trackLoop s rest
    | none, _ => trackLoop s rest

/-- View `vehicle_track_data` (views.py lines 479-501): the JSON polling feed. -/
def vehicle_track_data (s : Store) : List TrackEntry :=
  trackLoop s s.vehicles

/-- Stated from the spec for comparison: one entry per vehicle that has both
latitude and longitude set, and no entry for any other vehicle. -/
def trackFeedSpec (s : Store) : List TrackEntry :=
  (s.vehicles.filter (fun v => v.latitude.isSome && v.longitude.isSome)).map
    (trackEntryOf s)

/-- Form-level failures surfaced by re-rendering the form rather than by an
exception to the caller (spec section 7). -/
inductive FormError where
  | uniquenessViolation
  | validationFailure
  deriving Repr, DecidableEq

/-- Modelled from the spec: the uniqueness enforcement behind
`registration_no = models.CharField(..., unique=True)` (models.py line 21)
runs inside the framework `form.is_valid()` / database layer, which is not
part of this repository; per the spec a duplicate registration number is a
UniquenessViolation surfaced as a form error.  `add_vehicle`
(views.py lines 276-286) appends the vehicle when the form validates. -/
def add_vehicle (s : Store) (v : Vehicle) : Except FormError Store :=
  if s.vehicles.any (fun w => w.registration_no == v.registration_no) then
    .error .uniquenessViolation
  else
    .ok { s with vehicles := s.vehicles ++ [v] }

/-- The store after an `add_vehicle` request: unchanged when the form fails
(the request just re-renders the form). -/
def add_vehicle_store (s : Store) (v : Vehicle) : Store :=
  match add_vehicle s v with
  | .ok s2 => s2
  | .error _ => s

/-- Deleting a `User` with the cascades declared in models.py: `Profile.user`
is CASCADE (line 13), `Vehicle.current_driver` is SET_NULL (line 26),
`MaintenanceLog.created_by` and `FuelLog.created_by` are SET_NULL
(lines 40 and 51). -/
def delete_user_cascade (s : Store) (uid : Nat) : Store :=
  { users := s.users.filter (fun u => u.id != uid)
    profiles := s.profiles.filter (fun p => p.userId != uid)
    vehicles := s.vehicles.map (fun v =>
      if v.current_driver == some uid then { v with current_driver := none } else v)
    maintenance_logs := s.maintenance_logs.map (fun m =>
      if m.created_by == some uid then { m with created_by := none } else m)
    fuel_logs := s.fuel_logs.map (fun f =>
      if f.created_by == some uid then { f with created_by := none } else f) }

/-- View `delete_profile` (views.py lines 264-272): look the profile up by pk
(404 when absent), delete the linked user (with its cascades), then delete
the profile row itself. -/
def delete_profile (s : Store) (pk : Nat) : Except Unit Store :=
  match s.profiles.find? (fun p => p.id == pk) with
  | none => .error ()
  | some p =>
      let s1 := delete_user_cascade s p.userId
      .ok { s1 with profiles := s1.profiles.filter (fun q => q.id != pk) }

/-- Django `__icontains`: case-insensitive substring match. -/
def icontains (hay needle : String) : Bool :=
  decide (List.IsInfix (lower needle).data (lower hay).data)

/-- Ascending order on registration numbers, as `order_by("registration_no")`. -/
def regLe (a b : Vehicle) : Prop :=
  a.registration_no ≤ b.registration_no

instance : DecidableRel regLe := fun a b =>
  inferInstanceAs (Decidable (a.registration_no ≤ b.registration_no))

/-- Stable sort by registration number ascending. -/
def sortByReg (l : List Vehicle) : List Vehicle :=
  l.insertionSort regLe

/-- Result of `vehicle_list`: the ordered filtered vehicles and the header
stats (total, assigned, maintenance). -/
structure VehicleListResult where
  vehicles : List Vehicle
  total : Nat
  assigned : Nat
  maintenance : Nat
  deriving Repr, DecidableEq

/-- View `vehicle_list` (views.py lines 288-313): strip the query params, filter
by icontains over registration/make/model when `q` is nonempty, then by
exact status when `status` is nonempty; counts are taken on the filtered
set and the list is ordered by registration number ascending. -/
def vehicle_list (s : Store) (q status : String) : VehicleListResult :=
  let q := strTrim q
  let status := strTrim status
  let qs := s.vehicles
  let qs := if q = "" then qs else
    qs.filter (fun v =>
      icontains v.registration_no q || icontains v.make q || icontains v.model q)
  let qs := if status = "" then qs else qs.filter (fun v => v.status == status)
  { vehicles := sortByReg qs
    total := qs.length
    assigned := (qs.filter (fun v => v.current_driver.isSome)).length
    maintenance := (qs.filter (fun v => v.status == "maintenance")).length }

/-- Stated from the spec for comparison: exactly the vehicles whose
registration number, make, or model contains `q` as a case-insensitive
substring and (when `status` is nonempty) whose status equals `status`
exactly, ordered by registration number ascending, with the three aggregate
counts over that filtered set. -/
def vehicleListSpec (s : Store) (q status : String) : VehicleListResult :=
  let sel := s.vehicles.filter (fun v =>
    (icontains v.registration_no q || icontains v.make q || icontains v.model q)
    && (status == "" || v.status == status))
  { vehicles := sortByReg sel
    total := sel.length
    assigned := (sel.filter (fun v => v.current_driver.isSome)).length
    maintenance := (sel.filter (fun v => v.status == "maintenance")).length }

/-- The external geocoding call: `.ok none` when the service returns no
match, `.error` when the call raises, `.ok (some (lat, lng))` on success. -/
def GeoResult := Except String (Option (Int × Int))

/-- Method `VehicleForm.save` (views.py lines 99-117): when a place name was
supplied and the geocoder library imported, try to geocode it; a resolved
location updates latitude/longitude/last_location_time on the instance, a
miss or a raised exception leaves the instance untouched; the instance is
then saved either way.  The function is total: no error reaches the caller. -/
def vehicle_form_save (inst : Vehicle) (place : String)
    (geocoderAvailable : Bool) (geocode : String → GeoResult) (now : Nat) : Vehicle :=
  if place ≠ "" && geocoderAvailable then
    match geocode place with
    | .ok (some (lat, lng)) =>
        { inst with latitude := some lat, longitude := some lng,
                    last_location_time := some now }
    | .ok none => inst
    | .error _ => inst
  else inst

/-- Validation of `AssignVehicleForm` (views.py lines 119-127): the
`current_driver` choices are restricted to users whose profile role is
"driver" case-insensitively (line 126) and the field is optional (line 127);
`status` must be one of the model STATUS_CHOICES (models.py lines 20, 25). -/
def assign_form_valid (s : Store) (driver : Option Nat) (status : String) : Bool :=
  (status == "active" || status == "inactive" || status == "maintenance") &&
  match driver with
  | none => true
  | some uid =>
      s.users.any (fun u => u.id == uid) &&
      match s.profileOf uid with
      | some p => lower p.role == "driver"
      | none => false

/-- View `assign_vehicle` (views.py lines 315-326) with `AssignVehicleForm`
(lines 119-127): a valid form updates exactly the `current_driver` and
`status` fields of the vehicle; an invalid form re-renders. -/
def assign_vehicle (s : Store) (v : Vehicle) (driver : Option Nat)
    (status : String) : Except FormError Vehicle :=
  if assign_form_valid s driver status then
    .ok { v with current_driver := driver, status := status }
  else
    .error .validationFailure

/-- Outcome of `login_view` (views.py lines 140-166). -/
inductive LoginOutcome where
  | invalidCredentials
  | redirectAdminDashboard
  | redirectStaffDashboard
  | redirectDriverDashboard
  | roleError
  deriving Repr, DecidableEq

/-- View `login_view` POST branch (views.py lines 145-164): `auth` is the result
of `authenticate` (the credential store is external).  On success `login`
activates a session; a recognized role redirects to its dashboard (superuser
with no role counts as admin), otherwise `logout` tears the session back
down and the form re-renders with a role error.  The second component is
whether a session is active when the response is returned. -/
def login_view (s : Store) (auth : Option User) : LoginOutcome × Bool :=
  match auth with
  | none => (.invalidCredentials, false)
  | some u =>
      let role := get_user_role s u
      if role == some "admin" || (role == none && u.is_superuser) then
        (.redirectAdminDashboard, true)
      else if role == some "staff" then
        (.redirectStaffDashboard, true)
      else if role == some "driver" then
        (.redirectDriverDashboard, true)
      else
        (.roleError, false)

/-- Concrete authenticated non-superuser for witnesses. -/
def demoUser : User :=
  { id := 1, username := "bob", is_superuser := false, is_authenticated := true }

/-- Concrete unauthenticated identity (Django AnonymousUser). -/
def anonUser : User :=
  { id := 0, username := "", is_superuser := false, is_authenticated := false }

/-- Concrete driver profile linked to `demoUser`. -/
def demoDriverProfile : Profile :=
  { id := 1, userId := 1, role := "driver" }

/-- Concrete vehicle assigned to `demoUser`. -/
def demoVehicle : Vehicle :=
  { id := 1, registration_no := "KA01AB1234", make := "Toyota", model := "Corolla",
    year := some 2020, status := "active", current_driver := some 1,
    latitude := some 12, longitude := some 77, last_location_time := some 100 }

/-- Concrete store holding the demo records. -/
def demoStore : Store :=
  { users := [demoUser], profiles := [demoDriverProfile], vehicles := [demoVehicle],
    maintenance_logs := [], fuel_logs := [] }

/-- Concrete vehicle reusing the registration number of the demo vehicle. -/
def dupVehicle : Vehicle :=
  { id := 2, registration_no := "KA01AB1234", make := "Honda", model := "Civic",
    year := none, status := "active", current_driver := none,
    latitude := none, longitude := none, last_location_time := none }

/-- The empty store. -/
def emptyStore : Store :=
  { users := [], profiles := [], vehicles := [], maintenance_logs := [], fuel_logs := [] }

/-- Concrete authenticated user whose profile carries a role outside the
recognized set. -/
def managerUser : User :=
  { id := 2, username := "eve", is_superuser := false, is_authenticated := true }

/-- Concrete profile with the unrecognized role "manager". -/
def managerProfile : Profile :=
  { id := 2, userId := 2, role := "manager" }

/-- Concrete store holding only the manager records. -/
def managerStore : Store :=
  { users := [managerUser], profiles := [managerProfile], vehicles := [],
    maintenance_logs := [], fuel_logs := [] }

/-- Concrete geocoder that resolves every place to a fixed coordinate. -/
def demoGeocode : String → GeoResult :=
  fun _ => .ok (some (48, 2))

end Vehi

namespace Vehi

theorem contains_map_lower (l : List String) (x : String) :
    (l.map (fun r => lower r)).contains x = true ↔ ∃ r ∈ l, lower r = x := by
  simp

theorem contains_map_lower_false (l : List String) (x : String)
    (h : ¬ ∃ r ∈ l, lower r = x) : (l.map (fun r => lower r)).contains x = false := by
  rw [Bool.eq_false_iff]
  intro hc
  exact h ((contains_map_lower l x).mp hc)

/-- C1: for every request to a role-gated operation by an authenticated
identity, the Authorization Gate permits the operation if and only if the
identity is a superuser, or its Profile role equals "admin"
case-insensitively, or its Profile role is a case-insensitive member of the
required role-set of the operation; in every other case the operation fails
with PermissionDenied (an identity lacking a Profile and lacking superuser
status fails every check, since the existential over its profile is vacuous). -/
theorem C1_role_required_permits_iff (allowed_roles : List String) (s : Store)
    (u : User) (hauth : u.is_authenticated = true) :
    (role_required allowed_roles s u = .allowed ↔
      (u.is_superuser = true ∨
        ∃ p, s.profileOf u.id = some p ∧
          (lower p.role = "admin" ∨ ∃ r ∈ allowed_roles, lower r = lower p.role)))
    ∧ (role_required allowed_roles s u ≠ .allowed →
        role_required allowed_roles s u = .denied) := by
  unfold role_required is_app_admin get_user_role
  cases hsu : u.is_superuser
  · cases hp : s.profileOf u.id with
    | none => simp [hauth, hp]
    | some p =>
      by_cases ha : lower p.role = "admin"
      · simp [hauth, hp, ha]
      · by_cases hc : ∃ r ∈ allowed_roles, lower r = lower p.role
        · have hct := (contains_map_lower allowed_roles (lower p.role)).mpr hc
          simp [hauth, hp, ha, hct, hc]
        · have hcf := contains_map_lower_false allowed_roles (lower p.role) hc
          simp [hauth, hp, ha, hcf, hc]
  · simp [hauth, hsu]

/-- Witness for C1 at a concrete store, user, and role-set. -/
theorem C1_role_required_permits_iff_witness :
    demoUser.is_authenticated = true ∧
      ((role_required ["driver"] demoStore demoUser = .allowed ↔
          (demoUser.is_superuser = true ∨
            ∃ p, demoStore.profileOf demoUser.id = some p ∧
              (lower p.role = "admin" ∨
                ∃ r ∈ (["driver"] : List String), lower r = lower p.role)))
        ∧ (role_required ["driver"] demoStore demoUser ≠ .allowed →
            role_required ["driver"] demoStore demoUser = .denied)) :=
  ⟨rfl, C1_role_required_permits_iff ["driver"] demoStore demoUser rfl⟩

/-- C2: an authenticated identity whose Profile role is "driver" and which is
not a superuser is allowed by `vehicle_detail` exactly on vehicles currently
assigned to it and gets PermissionDenied on any other vehicle; identities
whose Profile role is "admin" or "staff" are always allowed, regardless of
ownership. -/
theorem C2_vehicle_detail_driver_ownership (s : Store) (u : User) (v : Vehicle)
    (p : Profile) (hauth : u.is_authenticated = true)
    (hp : s.profileOf u.id = some p) :
    ((p.role = "driver" → u.is_superuser = false →
        ((vehicle_detail s u v = .allowed ↔ v.current_driver = some u.id)
          ∧ (v.current_driver ≠ some u.id → vehicle_detail s u v = .denied)))
      ∧ ((p.role = "admin" ∨ p.role = "staff") → vehicle_detail s u v = .allowed)) := by
  constructor
  · intro hrole hsu
    have hl : lower "driver" = "driver" := by decide
    have hadm : lower "admin" = "admin" := by decide
    have hstf : lower "staff" = "staff" := by decide
    unfold vehicle_detail role_required is_app_admin get_user_role
    simp only [hauth, hp, hrole, hl, hsu]
    by_cases hd : v.current_driver = some u.id <;>
      simp [hd, hrole, hl, hadm, hstf]
  · intro hrole
    unfold vehicle_detail role_required is_app_admin get_user_role
    rcases hrole with hrole | hrole
    · have hl : lower "admin" = "admin" := by decide
      simp [hauth, hp, hrole, hl]
    · have hl : lower "staff" = "staff" := by decide
      simp [hauth, hp, hrole, hl]

/-- Witness for C2 at the demo store: the demo driver owns the demo vehicle. -/
theorem C2_vehicle_detail_driver_ownership_witness :
    demoUser.is_authenticated = true ∧
      demoStore.profileOf demoUser.id = some demoDriverProfile ∧
      ((demoDriverProfile.role = "driver" → demoUser.is_superuser = false →
          ((vehicle_detail demoStore demoUser demoVehicle = .allowed ↔
              demoVehicle.current_driver = some demoUser.id)
            ∧ (demoVehicle.current_driver ≠ some demoUser.id →
                vehicle_detail demoStore demoUser demoVehicle = .denied)))
        ∧ ((demoDriverProfile.role = "admin" ∨ demoDriverProfile.role = "staff") →
            vehicle_detail demoStore demoUser demoVehicle = .allowed)) :=
  ⟨rfl, rfl,
    C2_vehicle_detail_driver_ownership demoStore demoUser demoVehicle
      demoDriverProfile rfl rfl⟩

theorem trackLoop_eq (s : Store) (l : List Vehicle) :
    trackLoop s l =
      (l.filter (fun v => v.latitude.isSome && v.longitude.isSome)).map
        (trackEntryOf s) := by
  induction l with
  | nil => rfl
  | cons v rest ih =>
    cases hla : v.latitude <;> cases hlo : v.longitude <;>
      simp [trackLoop, trackEntryOf, hla, hlo, ih]

/-- C3: the location feed consists of exactly one entry, of the documented
shape, for every vehicle that has both latitude and longitude set, and of no
entry for any other vehicle. -/
theorem C3_track_feed_exactly_located_vehicles (s : Store) :
    vehicle_track_data s = trackFeedSpec s := by
  unfold vehicle_track_data trackFeedSpec
  exact trackLoop_eq s s.vehicles

/-- C4: adding a vehicle whose registration number is already stored fails
with a UniquenessViolation form error, the store is unchanged by the failed
attempt, and the already-stored vehicle is still present. -/
theorem C4_duplicate_registration_rejected (s : Store) (v1 v2 : Vehicle)
    (h1 : v1 ∈ s.vehicles) (hr : v1.registration_no = v2.registration_no) :
    add_vehicle s v2 = .error .uniquenessViolation
      ∧ add_vehicle_store s v2 = s
      ∧ v1 ∈ (add_vehicle_store s v2).vehicles := by
  have hdup : s.vehicles.any (fun w => w.registration_no == v2.registration_no) = true :=
    List.any_eq_true.mpr ⟨v1, h1, by simp [hr]⟩
  refine ⟨?_, ?_, ?_⟩ <;> simp [add_vehicle, add_vehicle_store, hdup, h1]

/-- Witness for C4: a second vehicle with the demo registration number is
rejected and the demo vehicle survives. -/
theorem C4_duplicate_registration_rejected_witness :
    demoVehicle ∈ demoStore.vehicles
      ∧ demoVehicle.registration_no = dupVehicle.registration_no
      ∧ (add_vehicle demoStore dupVehicle = .error .uniquenessViolation
          ∧ add_vehicle_store demoStore dupVehicle = demoStore
          ∧ demoVehicle ∈ (add_vehicle_store demoStore dupVehicle).vehicles) :=
  ⟨by simp [demoStore], rfl,
    C4_duplicate_registration_rejected demoStore demoVehicle dupVehicle
      (by simp [demoStore]) rfl⟩

theorem delete_user_cascade_clears (s : Store) (uid : Nat) :
    (∀ w ∈ (delete_user_cascade s uid).users, w.id ≠ uid)
      ∧ (∀ q ∈ (delete_user_cascade s uid).profiles, q.userId ≠ uid)
      ∧ (∀ v ∈ (delete_user_cascade s uid).vehicles, v.current_driver ≠ some uid)
      ∧ (∀ m ∈ (delete_user_cascade s uid).maintenance_logs, m.created_by ≠ some uid)
      ∧ (∀ f ∈ (delete_user_cascade s uid).fuel_logs, f.created_by ≠ some uid) := by
  unfold delete_user_cascade
  refine ⟨?_, ?_, ?_, ?_, ?_⟩
  · intro w hw
    rw [List.mem_filter] at hw
    simpa using hw.2
  · intro q hq
    rw [List.mem_filter] at hq
    simpa using hq.2
  · intro v hv
    rw [List.mem_map] at hv
    obtain ⟨v0, _, rfl⟩ := hv
    cases hc : (v0.current_driver == some uid) <;> simp [hc]
    simpa using hc
  · intro m hm
    rw [List.mem_map] at hm
    obtain ⟨m0, _, rfl⟩ := hm
    cases hc : (m0.created_by == some uid) <;> simp [hc]
    simpa using hc
  · intro f hf
    rw [List.mem_map] at hf
    obtain ⟨f0, _, rfl⟩ := hf
    cases hc : (f0.created_by == some uid) <;> simp [hc]
    simpa using hc

/-- C5: deleting a Profile removes both the profile and its linked identity
from the store; no vehicle or log row is lost: every vehicle previously
assigned to that identity persists with its driver reference nulled, every
other vehicle persists unchanged, every maintenance or fuel log created by
that identity persists with its creator reference nulled, and afterwards no
vehicle or log references the identity at all. -/
theorem C5_delete_profile_cascades (s : Store) (pk : Nat) (p : Profile)
    (hp : s.profiles.find? (fun q => q.id == pk) = some p) :
    ∃ s2, delete_profile s pk = .ok s2
      ∧ p ∉ s2.profiles
      ∧ (∀ q ∈ s2.profiles, q.id ≠ pk)
      ∧ (∀ w ∈ s2.users, w.id ≠ p.userId)
      ∧ s2.vehicles.length = s.vehicles.length
      ∧ s2.maintenance_logs.length = s.maintenance_logs.length
      ∧ s2.fuel_logs.length = s.fuel_logs.length
      ∧ (∀ v ∈ s.vehicles, v.current_driver = some p.userId →
          { v with current_driver := none } ∈ s2.vehicles)
      ∧ (∀ v ∈ s.vehicles, v.current_driver ≠ some p.userId → v ∈ s2.vehicles)
      ∧ (∀ v ∈ s2.vehicles, v.current_driver ≠ some p.userId)
      ∧ (∀ m ∈ s.maintenance_logs, m.created_by = some p.userId →
          { m with created_by := none } ∈ s2.maintenance_logs)
      ∧ (∀ m ∈ s2.maintenance_logs, m.created_by ≠ some p.userId)
      ∧ (∀ f ∈ s.fuel_logs, f.created_by = some p.userId →
          { f with created_by := none } ∈ s2.fuel_logs)
      ∧ (∀ f ∈ s2.fuel_logs, f.created_by ≠ some p.userId) := by
  have hpid : p.id = pk := by
    have := List.find?_some hp
    simpa using this
  obtain ⟨hu, _, hv, hm, hf⟩ := delete_user_cascade_clears s p.userId
  unfold delete_profile
  rw [hp]
  refine ⟨_, rfl, ?_, ?_, ?_, ?_, ?_, ?_, ?_, ?_, ?_, ?_, ?_, ?_, ?_⟩
  · intro hmem
    rw [List.mem_filter] at hmem
    simp [hpid] at hmem
  · intro q hq
    rw [List.mem_filter] at hq
    simpa using hq.2
  · intro w hw
    exact hu w hw
  · simp [delete_user_cascade]
  · simp [delete_user_cascade]
  · simp [delete_user_cascade]
  · intro v hv0 hd
    simp only [delete_user_cascade, List.mem_map]
    exact ⟨v, hv0, by simp [hd]⟩
  · intro v hv0 hd
    simp only [delete_user_cascade, List.mem_map]
    exact ⟨v, hv0, by simp [hd]⟩
  · intro v hv2
    exact hv v hv2
  · intro m hm0 hd
    simp only [delete_user_cascade, List.mem_map]
    exact ⟨m, hm0, by simp [hd]⟩
  · intro m hm2
    exact hm m hm2
  · intro f hf0 hd
    simp only [delete_user_cascade, List.mem_map]
    exact ⟨f, hf0, by simp [hd]⟩
  · intro f hf2
    exact hf f hf2

/-- Witness for C5: deleting the profile of the demo driver at the demo store. -/
theorem C5_delete_profile_cascades_witness :
    demoStore.profiles.find? (fun q => q.id == 1) = some demoDriverProfile
      ∧ (∃ s2, delete_profile demoStore 1 = .ok s2
          ∧ demoDriverProfile ∉ s2.profiles
          ∧ (∀ q ∈ s2.profiles, q.id ≠ 1)
          ∧ (∀ w ∈ s2.users, w.id ≠ demoDriverProfile.userId)
          ∧ s2.vehicles.length = demoStore.vehicles.length
          ∧ s2.maintenance_logs.length = demoStore.maintenance_logs.length
          ∧ s2.fuel_logs.length = demoStore.fuel_logs.length
          ∧ (∀ v ∈ demoStore.vehicles, v.current_driver = some demoDriverProfile.userId →
              { v with current_driver := none } ∈ s2.vehicles)
          ∧ (∀ v ∈ demoStore.vehicles, v.current_driver ≠ some demoDriverProfile.userId →
              v ∈ s2.vehicles)
          ∧ (∀ v ∈ s2.vehicles, v.current_driver ≠ some demoDriverProfile.userId)
          ∧ (∀ m ∈ demoStore.maintenance_logs, m.created_by = some demoDriverProfile.userId →
              { m with created_by := none } ∈ s2.maintenance_logs)
          ∧ (∀ m ∈ s2.maintenance_logs, m.created_by ≠ some demoDriverProfile.userId)
          ∧ (∀ f ∈ demoStore.fuel_logs, f.created_by = some demoDriverProfile.userId →
              { f with created_by := none } ∈ s2.fuel_logs)
          ∧ (∀ f ∈ s2.fuel_logs, f.created_by ≠ some demoDriverProfile.userId)) :=
  ⟨rfl, C5_delete_profile_cascades demoStore 1 demoDriverProfile rfl⟩

theorem icontains_empty (h : String) : icontains h "" = true := by
  unfold icontains
  exact decide_eq_true List.nil_infix

/-- C6 counterexample: on the untrimmed query " a " with empty status, the
view strips the parameter (views.py lines 292-293) and filters by "a", so it
returns the demo vehicle even though no vehicle contains " a " as a
substring; the returned set is therefore not the set of vehicles matching
the raw query string, refuting the claim as stated for untrimmed inputs.
The second conjunct shows the view instead computes the spec result of the
stripped query. -/
theorem C6_untrimmed_query_counterexample :
    vehicle_list demoStore " a " "" ≠ vehicleListSpec demoStore " a " ""
      ∧ vehicle_list demoStore " a " "" = vehicleListSpec demoStore "a" "" := by
  constructor <;> decide

/-- C6 (amended): on trimmed query parameters, `vehicle_list` returns exactly the
vehicles whose registration number, make, or model contains the query as a
case-insensitive substring and (when the status filter is nonempty) whose
status equals it exactly, ordered by registration number ascending, with the
three aggregate counts taken over that filtered set. -/
theorem C6_vehicle_list_filter (s : Store) (q status : String)
    (hq : strTrim q = q) (hst : strTrim status = status) :
    vehicle_list s q status = vehicleListSpec s q status := by
  unfold vehicle_list vehicleListSpec
  simp only [hq, hst]
  by_cases hqe : q = "" <;> by_cases hse : status = ""
  · subst hqe
    subst hse
    simp [icontains_empty]
  · subst hqe
    have hsb : (status == "") = false := by simpa using hse
    simp [icontains_empty, hse, hsb]
  · subst hse
    simp [hqe, icontains_empty]
  · have hsb : (status == "") = false := by simpa using hse
    simp [hqe, hse, hsb, List.filter_filter, Bool.and_comm]

/-- Witness for C6 at the demo store with trimmed parameters. -/
theorem C6_vehicle_list_filter_witness :
    strTrim "abc" = "abc" ∧ strTrim "" = ""
      ∧ vehicle_list demoStore "abc" "" = vehicleListSpec demoStore "abc" "" :=
  ⟨rfl, rfl, C6_vehicle_list_filter demoStore "abc" "" rfl rfl⟩

/-- C7: when a place name is supplied, a resolved geocoding lookup updates
the latitude of the saved vehicle, longitude, and location timestamp; an
unavailable geocoder, an unresolved place, or a raised exception leaves the
vehicle exactly as it was, and the save is total, so no error ever reaches
the caller. -/
theorem C7_vehicle_form_save_geocoding (inst : Vehicle) (place : String)
    (gav : Bool) (geocode : String → GeoResult) (now : Nat)
    (hplace : place ≠ "") :
    (∀ lat lng, gav = true → geocode place = .ok (some (lat, lng)) →
        vehicle_form_save inst place gav geocode now =
          { inst with latitude := some lat, longitude := some lng,
                      last_location_time := some now })
      ∧ ((gav = false ∨ geocode place = .ok none ∨ ∃ e, geocode place = .error e) →
          vehicle_form_save inst place gav geocode now = inst) := by
  unfold vehicle_form_save
  constructor
  · intro lat lng hg hres
    simp [hplace, hg, hres]
  · rintro (hg | hres | ⟨e, hres⟩)
    · simp [hg]
    · cases gav <;> simp [hplace, hres]
    · cases gav <;> simp [hplace, hres]

/-- Witness for C7 with a concrete vehicle, place, and geocoder. -/
theorem C7_vehicle_form_save_geocoding_witness :
    ("Paris" : String) ≠ ""
      ∧ ((∀ lat lng, true = true → demoGeocode "Paris" = .ok (some (lat, lng)) →
            vehicle_form_save dupVehicle "Paris" true demoGeocode 7 =
              { dupVehicle with latitude := some lat, longitude := some lng,
                                last_location_time := some 7 })
          ∧ ((true = false ∨ demoGeocode "Paris" = .ok none
                ∨ ∃ e, demoGeocode "Paris" = .error e) →
              vehicle_form_save dupVehicle "Paris" true demoGeocode 7 = dupVehicle)) :=
  ⟨by decide, C7_vehicle_form_save_geocoding dupVehicle "Paris" true demoGeocode 7
    (by decide)⟩

/-- C8: a valid assignment updates exactly the driver reference and status
fields of the vehicle, leaving registration number, make, model, year,
latitude, longitude, and location timestamp unchanged, and any non-null
driver it sets has a Profile whose role is "driver" case-insensitively. -/
theorem C8_assign_vehicle_frame (s : Store) (v : Vehicle) (driver : Option Nat)
    (status : String) (hv : assign_form_valid s driver status = true) :
    ∃ v2, assign_vehicle s v driver status = .ok v2
      ∧ v2.registration_no = v.registration_no ∧ v2.make = v.make
      ∧ v2.model = v.model ∧ v2.year = v.year
      ∧ v2.latitude = v.latitude ∧ v2.longitude = v.longitude
      ∧ v2.last_location_time = v.last_location_time
      ∧ v2.current_driver = driver ∧ v2.status = status
      ∧ (∀ uid, driver = some uid →
          ∃ p, s.profileOf uid = some p ∧ lower p.role = "driver") := by
  refine ⟨{ v with current_driver := driver, status := status },
    by simp [assign_vehicle, hv], rfl, rfl, rfl, rfl, rfl, rfl, rfl, rfl, rfl, ?_⟩
  intro uid hd
  subst hd
  simp only [assign_form_valid, Bool.and_eq_true] at hv
  obtain ⟨-, -, h2⟩ := hv
  cases hp : s.profileOf uid with
  | none => simp [hp] at h2
  | some p =>
    rw [hp] at h2
    refine ⟨p, rfl, ?_⟩
    simpa using h2

/-- Witness for C8: assigning the demo driver to the demo vehicle. -/
theorem C8_assign_vehicle_frame_witness :
    assign_form_valid demoStore (some 1) "maintenance" = true
      ∧ (∃ v2, assign_vehicle demoStore demoVehicle (some 1) "maintenance" = .ok v2
          ∧ v2.registration_no = demoVehicle.registration_no ∧ v2.make = demoVehicle.make
          ∧ v2.model = demoVehicle.model ∧ v2.year = demoVehicle.year
          ∧ v2.latitude = demoVehicle.latitude ∧ v2.longitude = demoVehicle.longitude
          ∧ v2.last_location_time = demoVehicle.last_location_time
          ∧ v2.current_driver = some 1 ∧ v2.status = "maintenance"
          ∧ (∀ uid, (some 1 : Option Nat) = some uid →
              ∃ p, demoStore.profileOf uid = some p ∧ lower p.role = "driver")) :=
  ⟨by decide, C8_assign_vehicle_frame demoStore demoVehicle (some 1) "maintenance"
    (by decide)⟩

/-- C9 counterexample: an authenticated identity that is not an admin, not a
superuser, and has no Profile gets PermissionDenied from the admin dashboard
gate, not a redirect to the login entry point, refuting the claim as stated. -/
theorem C9_profile_less_authenticated_denied :
    demoUser.is_authenticated = true
      ∧ demoUser.is_superuser = false
      ∧ is_app_admin emptyStore demoUser = false
      ∧ emptyStore.profileOf demoUser.id = none
      ∧ admin_dashboard_gate emptyStore demoUser = .denied
      ∧ GateResult.denied ≠ GateResult.redirectLogin :=
  ⟨rfl, rfl, rfl, rfl, rfl, by decide⟩

/-- C9 (amended): an identity that is not authenticated is redirected to the
login entry point by the admin dashboard gate; an authenticated identity
that is not a superuser and has no Profile fails with PermissionDenied
instead. -/
theorem C9_unauthenticated_redirects_to_login (s : Store) (u : User) :
    (u.is_authenticated = false → admin_dashboard_gate s u = .redirectLogin)
      ∧ (u.is_authenticated = true → u.is_superuser = false →
          s.profileOf u.id = none → admin_dashboard_gate s u = .denied) := by
  constructor
  · intro h
    simp [admin_dashboard_gate, role_required, h]
  · intro hauth hsu hp
    simp [admin_dashboard_gate, role_required, is_app_admin, get_user_role,
      hauth, hsu, hp]

/-- Witness for the amended C9: the anonymous identity is redirected. -/
theorem C9_unauthenticated_redirects_to_login_witness :
    anonUser.is_authenticated = false
      ∧ admin_dashboard_gate emptyStore anonUser = .redirectLogin :=
  ⟨rfl, (C9_unauthenticated_redirects_to_login emptyStore anonUser).1 rfl⟩

/-- C10: an identity that authenticates successfully but is neither a
superuser nor carries a normalized Profile role among admin, staff, or
driver is logged back out and shown a role error, ending login with no
active session. -/
theorem C10_login_rejects_unassigned_role (s : Store) (u : User)
    (hsu : u.is_superuser = false)
    (ha : get_user_role s u ≠ some "admin")
    (hb : get_user_role s u ≠ some "staff")
    (hc : get_user_role s u ≠ some "driver") :
    login_view s (some u) = (.roleError, false) := by
  unfold login_view
  simp [hsu, ha, hb, hc]

/-- Witness for C10: the manager-role user is bounced back out. -/
theorem C10_login_rejects_unassigned_role_witness :
    managerUser.is_superuser = false
      ∧ get_user_role managerStore managerUser ≠ some "admin"
      ∧ get_user_role managerStore managerUser ≠ some "staff"
      ∧ get_user_role managerStore managerUser ≠ some "driver"
      ∧ login_view managerStore (some managerUser) = (.roleError, false) :=
  ⟨rfl, by decide, by decide, by decide,
    C10_login_rejects_unassigned_role managerStore managerUser rfl
      (by decide) (by decide) (by decide)⟩

end Vehi
